import Mathlib

/-!
Verification of the grounding-verification pipeline in `agent.py`
(class GeminiService): metadata extraction, hallucination detection,
confidence scoring, and stale-knowledge detection.

Modelling conventions:
* texts are Lean `String`s (Python `len` counts code points, as does
  `String.length`); the regular expressions of the source are embedded
  as explicit scanners over `List Char`, with the character classes of
  the patterns read at the ASCII level;
* Python floats are exact rationals (every score reachable in this code
  is an exact multiple of 1/25, where binary floats and rationals agree
  after rounding to two decimals);
* Python `datetime` values are a calendar date plus a time of day in
  microseconds (Python datetimes have exactly microsecond resolution),
  compared on an integer microsecond axis;
* attribute absence in the loosely-typed response tree is modelled with
  `Option`; the one unguarded attribute access of the source
  (`support.segment.text`) is modelled as an abortable step, and the
  `except` clause that recovers from it keeps the partially built
  metadata, exactly as the mutated dict survives in Python.
-/

namespace Agent

/-! ## Data model: the normalized grounding metadata dictionary -/

/--
One entry of `metadata["grounding_chunks"]` as built by
`_extract_grounding_metadata`: either the empty dict `{}` (chunk had no
`web` attribute) or a dict with both `uri` and `title` keys, each of which
holds a string or Python `None` (modelled by `Option String`).
-/
inductive ChunkData where
  | empty : ChunkData
  | web (uri title : Option String) : ChunkData
deriving DecidableEq

/--
One entry of `metadata["grounding_supports"]`: segment text (possibly
`None`), chunk indices and confidence scores.
-/
structure SupportData where
  segment_text : Option String
  grounding_chunk_indices : List Int
  confidence_scores : List ℚ
deriving DecidableEq

/--
The dictionary returned by `_extract_grounding_metadata`.  It is created
with exactly the three keys `search_queries`, `grounding_chunks`,
`grounding_supports`, each holding a list, and no key is ever removed, so
a record with three list fields is a faithful model.
-/
structure GroundingMetadata where
  search_queries : List String
  grounding_chunks : List ChunkData
  grounding_supports : List SupportData
deriving DecidableEq

/-! ## Text scanners: embeddings of the regular expressions in agent.py -/

/-- Numeric value of a digit string, as Python `int` on a `\d+` match. -/
def nat_of_digits (l : List Char) : ℕ :=
  l.foldl (fun n c => 10 * n + (c.toNat - 48)) 0

/--
`re.findall of the pattern bracket-digits-bracket over text` followed by `int(...)`: all
non-overlapping occurrences of a bracketed digit run, left to right.
On a failed candidate the scanner advances one position, like the regex
engine; after a successful match, rescanning from inside the matched
digits finds no `[` before the match end, so recursing on the tail is
equivalent to continuing after the match.
-/
def find_citations : List Char → List ℕ
  | [] => []
  | '[' :: rest =>
    (match rest.dropWhile Char.isDigit with
     | ']' :: _ =>
       if (rest.takeWhile Char.isDigit).isEmpty then find_citations rest
       else nat_of_digits (rest.takeWhile Char.isDigit) :: find_citations rest
     | _ => find_citations rest)
  | _ :: rest => find_citations rest

/-- Python `max` over the parsed citation list (callers guard non-emptiness). -/
def max_citation (l : List ℕ) : ℕ := l.foldl max 0

/-- Is the first character of `l` equal to `c`? -/
def first_is (l : List Char) (c : Char) : Bool :=
  match l with
  | x :: _ => x == c
  | [] => false

/--
The second list regex (newline, digits, period) searched in text: some newline is followed by a
(maximal, nonempty) digit run and then a period.  Backtracking inside
`\d+` cannot help: giving back a digit puts a digit where `\.` must match.
-/
def search_num_dot : List Char → Bool
  | [] => false
  | '\n' :: rest =>
    (!(rest.takeWhile Char.isDigit).isEmpty
        && first_is (rest.dropWhile Char.isDigit) '.')
      || search_num_dot rest
  | _ :: rest => search_num_dot rest

/-- The third list regex: the two-character substring newline-dash. -/
def search_nl_dash : List Char → Bool
  | '\n' :: '-' :: _ => true
  | _ :: rest => search_nl_dash rest
  | [] => false

/--
`has_list` from `_detect_hallucination`:
an asterisk in the text, or the newline-digits-period search, or the
newline-dash search.
-/
def has_list (t : String) : Bool :=
  t.toList.contains '*' || search_num_dot t.toList || search_nl_dash t.toList

/-! ## Hallucination detector -/

/--
`_detect_hallucination(response, grounding_metadata)`.  The four checks in
source order, returning on the first that trips:
1. ghost citations: `max(found) > source_count`;
2. empty receipt: list formatting with zero chunks;
3. ungrounded long claim: more than 200 chars, no supports, no chunks;
4. bare substantive answer: truthy text of more than 50 chars, no chunks.
-/
def detect_hallucination (response_text : String) (md : GroundingMetadata) : Bool :=
  if find_citations response_text.toList ≠ [] ∧
      md.grounding_chunks.length < max_citation (find_citations response_text.toList) then
    true
  else if md.grounding_chunks.length = 0 ∧ has_list response_text = true then
    true
  else if 200 < response_text.length ∧ md.grounding_supports = [] ∧
      md.grounding_chunks.length = 0 then
    true
  else if response_text ≠ "" ∧ 50 < response_text.length ∧
      md.grounding_chunks.length = 0 then
    true
  else
    false

/-! ## Confidence scorer -/

/--
Python `round(q, 2)`.  All scores reachable from
`_calculate_confidence_score` are integer multiples of `1/25`, so
`100 * q` is an integer, no tie is ever rounded, and the choice between
banker rounding (Python) and floor of `x + 1/2` is immaterial.
-/
def round_two (q : ℚ) : ℚ := (⌊100 * q + 1 / 2⌋ : ℚ) / 100

/--
`_calculate_confidence_score(grounding_metadata)`: `0.4` if any chunks,
plus `0.4` if any supports, plus `min(len(chunks)/5, 1) * 0.2`, rounded
to two decimal places.
-/
def calculate_confidence_score (md : GroundingMetadata) : ℚ :=
  let score0 : ℚ := 0
  let score1 := if md.grounding_chunks.length > 0 then score0 + 2 / 5 else score0
  let score2 := if md.grounding_supports.length > 0 then score1 + 2 / 5 else score1
  let score3 := score2 + min ((md.grounding_chunks.length : ℚ) / 5) 1 * (1 / 5)
  round_two score3

/--
The score exactly as the specification words it:
`0.4·[chunk count > 0] + 0.4·[support count > 0] + min(chunk_count/5, 1)·0.2`,
rounded to 2 decimal places.  Stated separately from the source-derived
`calculate_confidence_score` so the two can be compared.
-/
def confidence_spec (md : GroundingMetadata) : ℚ :=
  round_two
    ((2 / 5) * (if 0 < md.grounding_chunks.length then (1 : ℚ) else 0) +
     (2 / 5) * (if 0 < md.grounding_supports.length then (1 : ℚ) else 0) +
     min ((md.grounding_chunks.length : ℚ) / 5) 1 * (1 / 5))

/-- Closed form of the rounded score as a function of the two list lengths. -/
def conf_core (c s : ℕ) : ℚ :=
  round_two
    ((if 0 < c then (2 : ℚ) / 5 else 0) + (if 0 < s then (2 : ℚ) / 5 else 0) +
     min ((c : ℚ) / 5) 1 * (1 / 5))

/-! ## Calendar dates and the Python datetime axis -/

/-- A calendar date as held by a Python `datetime` (time of day kept apart). -/
structure Date where
  year : ℕ
  month : ℕ
  day : ℕ
deriving DecidableEq

/-- Gregorian leap year, as `calendar`/`datetime` implement it. -/
def is_leap (y : ℕ) : Bool :=
  decide (y % 4 = 0) && (decide (y % 100 ≠ 0) || decide (y % 400 = 0))

/-- Days in a month of a given year (`0` for an invalid month number). -/
def days_in_month (y m : ℕ) : ℕ :=
  match m with
  | 1 => 31
  | 2 => if is_leap y then 29 else 28
  | 3 => 31
  | 4 => 30
  | 5 => 31
  | 6 => 30
  | 7 => 31
  | 8 => 31
  | 9 => 30
  | 10 => 31
  | 11 => 30
  | 12 => 31
  | _ => 0

/--
Is `(y, m, d)` a date that `datetime(year, month, day)` accepts?
The Python `datetime` type restricts the year to 1..9999.
-/
def valid_date (y m d : ℕ) : Bool :=
  decide (1 ≤ y) && decide (y ≤ 9999) && decide (1 ≤ m) && decide (m ≤ 12) &&
    decide (1 ≤ d) && decide (d ≤ days_in_month y m)

/-- Days from January 1st to the first of month `m` (same year). -/
def days_before_month (y m : ℕ) : ℕ :=
  (match m with
   | 1 => 0
   | 2 => 31
   | 3 => 59
   | 4 => 90
   | 5 => 120
   | 6 => 151
   | 7 => 181
   | 8 => 212
   | 9 => 243
   | 10 => 273
   | 11 => 304
   | 12 => 334
   | _ => 0) +
  (if 2 < m && is_leap y then 1 else 0)

/--
Linear day number of a date (day 1 = 0001-01-01).  Only its strict order
and day differences matter; they agree with `datetime` subtraction.
-/
def day_number (d : Date) : ℕ :=
  365 * (d.year - 1) + (d.year - 1) / 4 + (d.year - 1) / 400 - (d.year - 1) / 100 +
    days_before_month d.year d.month + d.day

/-- Microseconds per day: the resolution of Python `datetime`. -/
def usec_per_day : ℕ := 86400000000

/-- The instant of a date at a given time of day, in microseconds. -/
def instant (d : Date) (tod : ℕ) : ℤ :=
  (day_number d : ℤ) * (usec_per_day : ℤ) + (tod : ℤ)

/-! ## Date mining: `_extract_date_from_source` -/

/-- Python `f"{x}"` on a value that is a string or `None`. -/
def py_str (x : Option String) : String :=
  match x with
  | some s => s
  | none => "None"

/-- The blob `f"{uri} {title}"` that `_extract_date_from_source` scans. -/
def date_blob (uri title : Option String) : List Char :=
  (py_str uri ++ " " ++ py_str title).toList

/-- A separator of the date regexes: the character class `[slash or dash]`. -/
def is_sep (c : Char) : Bool := c == '-' || c == '/'

/--
Day-of-month group `(\d{1,2})` at the end of pattern
`(\d{4})[slash or dash](\d{1,2})[slash or dash](\d{1,2})`: nothing follows it in the pattern, so
the greedy match simply takes up to two leading digits (at least one).
-/
def match_day (y m : ℕ) (l : List Char) : Option (ℕ × ℕ × ℕ) :=
  if (l.takeWhile Char.isDigit).isEmpty then none
  else some (y, m, nat_of_digits ((l.takeWhile Char.isDigit).take 2))

/-- One-digit month alternative of the first date pattern. -/
def match_ymd_month1 (y : ℕ) : List Char → Option (ℕ × ℕ × ℕ)
  | m1 :: s2 :: rest2 =>
    if m1.isDigit && is_sep s2 then match_day y (nat_of_digits [m1]) rest2 else none
  | _ => none

/--
Try `(\d{4})[slash or dash](\d{1,2})[slash or dash](\d{1,2})` anchored at the head of `l`.
`\d{1,2}` is greedy: two month digits are preferred; if the two-digit
alternative fails its following separator the engine falls back to one
digit (then the separator position holds a digit, so the fallback is the
only other possibility).
-/
def match_ymd_at (l : List Char) : Option (ℕ × ℕ × ℕ) :=
  match l with
  | a :: b :: c :: d :: s1 :: rest =>
    if a.isDigit && b.isDigit && c.isDigit && d.isDigit && is_sep s1 then
      match rest with
      | m1 :: m2 :: s2 :: rest2 =>
        if m1.isDigit && m2.isDigit && is_sep s2 then
          match_day (nat_of_digits [a, b, c, d]) (nat_of_digits [m1, m2]) rest2
        else match_ymd_month1 (nat_of_digits [a, b, c, d]) rest
      | _ => match_ymd_month1 (nat_of_digits [a, b, c, d]) rest
    else none
  | _ => none

/-- `re.search` of the first pattern: leftmost anchored match wins. -/
def search_ymd : List Char → Option (ℕ × ℕ × ℕ)
  | [] => none
  | a :: rest =>
    match match_ymd_at (a :: rest) with
    | some g => some g
    | none => search_ymd rest

/-- Try `(\d{4})[slash or dash](\d{1,2})` anchored at the head of `l`. -/
def match_ym_at (l : List Char) : Option (ℕ × ℕ) :=
  match l with
  | a :: b :: c :: d :: s1 :: rest =>
    if a.isDigit && b.isDigit && c.isDigit && d.isDigit && is_sep s1 then
      if (rest.takeWhile Char.isDigit).isEmpty then none
      else some (nat_of_digits [a, b, c, d],
                 nat_of_digits ((rest.takeWhile Char.isDigit).take 2))
    else none
  | _ => none

/-- `re.search` of the second pattern. -/
def search_ym : List Char → Option (ℕ × ℕ)
  | [] => none
  | a :: rest =>
    match match_ym_at (a :: rest) with
    | some g => some g
    | none => search_ym rest

/-- Case-insensitive three-letter English month abbreviation. -/
def month_from_abbrev (a b c : Char) : Option ℕ :=
  let k := [a.toLower, b.toLower, c.toLower]
  if k = ['j', 'a', 'n'] then some 1
  else if k = ['f', 'e', 'b'] then some 2
  else if k = ['m', 'a', 'r'] then some 3
  else if k = ['a', 'p', 'r'] then some 4
  else if k = ['m', 'a', 'y'] then some 5
  else if k = ['j', 'u', 'n'] then some 6
  else if k = ['j', 'u', 'l'] then some 7
  else if k = ['a', 'u', 'g'] then some 8
  else if k = ['s', 'e', 'p'] then some 9
  else if k = ['o', 'c', 't'] then some 10
  else if k = ['n', 'o', 'v'] then some 11
  else if k = ['d', 'e', 'c'] then some 12
  else none

/-- The `,? ` part of the third pattern: an optional comma, then a space. -/
def skip_comma_space : List Char → Option (List Char)
  | ',' :: ' ' :: r => some r
  | ' ' :: r => some r
  | _ => none

/--
Try `(Jan|...|Dec)[a-z]* (\d{1,2}),? (\d{4})` (IGNORECASE) anchored at the
head of `l`, returning the whole matched word (the abbreviation plus its
letter run — dateutil tokenizes group(0) into whole words, so the parser
sees this word, not just the abbreviation) together with the numeric day
and year groups.  After the abbreviation, `[a-z]*` must consume the whole
letter run (giving letters back puts a letter where the space must
match); the day group admits only a one- or two-digit run (a longer run
leaves a digit where `,? ` must match).
-/
def match_mon_at (l : List Char) : Option (List Char × ℕ × ℕ) :=
  match l with
  | c1 :: c2 :: c3 :: rest =>
    match month_from_abbrev c1 c2 c3 with
    | some _ =>
      (match rest.dropWhile Char.isAlpha with
       | ' ' :: rest2 =>
         if (rest2.takeWhile Char.isDigit).length = 1 ∨
             (rest2.takeWhile Char.isDigit).length = 2 then
           match skip_comma_space (rest2.dropWhile Char.isDigit) with
           | some rest3 =>
             (match rest3 with
              | y1 :: y2 :: y3 :: y4 :: _ =>
                if y1.isDigit && y2.isDigit && y3.isDigit && y4.isDigit then
                  some (c1 :: c2 :: c3 :: rest.takeWhile Char.isAlpha,
                        nat_of_digits (rest2.takeWhile Char.isDigit),
                        nat_of_digits [y1, y2, y3, y4])
                else none
              | _ => none)
           | none => none
         else none
       | _ => none)
    | none => none
  | _ => none

/-- `re.search` of the third pattern. -/
def search_mon : List Char → Option (List Char × ℕ × ℕ)
  | [] => none
  | a :: rest =>
    match match_mon_at (a :: rest) with
    | some g => some g
    | none => search_mon rest

/--
The dateutil two-digit-year convention (`parserinfo.convertyear`): a year
below 100 with no century specified is moved into the 100-year window
around the current year (date `nd`): add the current century, then shift
by 100 into `[current - 50, current + 50)`.  For a genuine current date
the truncated natural subtraction never loses information: a Python
result that would be negative becomes 0 here and is rejected by the same
validity check that rejects the negative year.
-/
def conv_year (nd : Date) (century : Bool) (y : ℕ) : ℕ :=
  if y < 100 && !century then
    (let y1 := y + nd.year / 100 * 100
     if nd.year + 50 ≤ y1 then y1 - 100
     else if y1 + 50 < nd.year then y1 + 100
     else y1)
  else y

/--
`dateutil.parser.parse(..., fuzzy=True)` on a match of the first pattern
(`YYYY`, separator, one or two digits, separator, one or two digits).
The four-digit group is appended as a string, so it always marks the year
(`ystridx = 0`) and the century; `resolve_ymd` then assigns
year–month–day in positional order (no swapping, `dayfirst=False`), the
year is taken verbatim, and all three fields being given, `datetime`
validates them strictly (no end-of-month clamping); any impossible value
raises, modelled as `none`.
-/
def py_parse_ymd (y m d : ℕ) : Option Date :=
  if valid_date y m d then some ⟨y, m, d⟩ else none

/--
`dateutil.parser.parse` on a match of the second pattern (`YYYY`,
separator, one or two digits).  The century is specified (four-digit
string), so no two-digit-year conversion happens, but `resolve_ymd`
assigns the two values by magnitude alone: first value above 31 makes it
the year and the second the month (the day comes from the current date
`nd` and is clamped to the end of the month); otherwise a second value
above 31 becomes the year and the first the month; otherwise the pair is
month and day with the year taken from the current date.  Any impossible
combination raises, modelled as `none`.
-/
def py_parse_ym (nd : Date) (y m : ℕ) : Option Date :=
  if 31 < y then
    (let dy := min nd.day (days_in_month y m)
     if valid_date y m dy then some ⟨y, m, dy⟩ else none)
  else if 31 < m then
    (let dy := min nd.day (days_in_month m y)
     if valid_date m y dy then some ⟨m, y, dy⟩ else none)
  else
    (if valid_date nd.year y m then some ⟨nd.year, y, m⟩ else none)

/--
The exact-token month lookup of `parserinfo.month`: only a whole word
that is a three-letter abbreviation, `Sept`, or a full English month name
(case-insensitively) is a month; any other word is not, however it
begins.
-/
def month_token (w : List Char) : Option ℕ :=
  let k := w.map Char.toLower
  if k = "jan".toList ∨ k = "january".toList then some 1
  else if k = "feb".toList ∨ k = "february".toList then some 2
  else if k = "mar".toList ∨ k = "march".toList then some 3
  else if k = "apr".toList ∨ k = "april".toList then some 4
  else if k = "may".toList then some 5
  else if k = "jun".toList ∨ k = "june".toList then some 6
  else if k = "jul".toList ∨ k = "july".toList then some 7
  else if k = "aug".toList ∨ k = "august".toList then some 8
  else if k = "sep".toList ∨ k = "sept".toList ∨ k = "september".toList then some 9
  else if k = "oct".toList ∨ k = "october".toList then some 10
  else if k = "nov".toList ∨ k = "november".toList then some 11
  else if k = "dec".toList ∨ k = "december".toList then some 12
  else none

/--
`dateutil.parser.parse(..., fuzzy=True)` on a match of the third pattern.
The tokens of group(0) are the whole word, the day digits and the
four-digit year (appended as a number, so it marks the year and century
only when its value exceeds 100).

If the word is a recognized month token: with the year marked
(value > 100) the assignment is fixed as (year, month, day) and validated
strictly; otherwise `resolve_ymd` goes by magnitude — a day group up to
31 gives (month, day, year) with the two-digit-year window applied to the
year, and a day group above 31 lands in the year slot (window applied)
with the four-digit value as the day.

If the word is not a month token, `fuzzy=True` skips it and only the two
numbers remain: first above 31 makes it the year (window applied, century
only from a value > 100) and the second the month, day defaulted and
clamped; otherwise a second above 31 is the year (window applied when not
above 100) and the first the month, day defaulted and clamped; otherwise
the pair is month and day with the year from the current date.  Any
impossible value raises, modelled as `none`.
-/
def py_parse_mon (nd : Date) (word : List Char) (d y : ℕ) : Option Date :=
  match month_token word with
  | some mon =>
    if 100 < y then
      (if valid_date y mon d then some ⟨y, mon, d⟩ else none)
    else if d ≤ 31 then
      (let yr := conv_year nd false y
       if valid_date yr mon d then some ⟨yr, mon, d⟩ else none)
    else
      (let yr := conv_year nd false d
       if valid_date yr mon y then some ⟨yr, mon, y⟩ else none)
  | none =>
    if 31 < d then
      (let yr := conv_year nd (decide (100 < y)) d
       let dy := min nd.day (days_in_month yr y)
       if valid_date yr y dy then some ⟨yr, y, dy⟩ else none)
    else if 31 < y then
      (let yr := conv_year nd (decide (100 < y)) y
       let dy := min nd.day (days_in_month yr d)
       if valid_date yr d dy then some ⟨yr, d, dy⟩ else none)
    else
      (if valid_date nd.year d y then some ⟨nd.year, d, y⟩ else none)

/-- What the first date pattern contributes: a match that also parses. -/
def pattern_a_result (blob : List Char) : Option Date :=
  match search_ymd blob with
  | some (y, m, d) => py_parse_ymd y m d
  | none => none

/-- What the second date pattern contributes. -/
def pattern_b_result (nd : Date) (blob : List Char) : Option Date :=
  match search_ym blob with
  | some (y, m) => py_parse_ym nd y m
  | none => none

/-- What the third date pattern contributes. -/
def pattern_c_result (nd : Date) (blob : List Char) : Option Date :=
  match search_mon blob with
  | some (w, d, y) => py_parse_mon nd w d y
  | none => none

/-- Tail of the pattern loop of `_extract_date_from_source`: patterns two
and three. -/
def extract_date_bc (nd : Date) (blob : List Char) : Option Date :=
  match search_ym blob with
  | some (y, m) =>
    (match py_parse_ym nd y m with
     | some dt => some dt
     | none => pattern_c_result nd blob)
  | none => pattern_c_result nd blob

/--
`_extract_date_from_source(uri, title)`: scan `f"{uri} {title}"` with the
three patterns in order; a pattern whose first match fails to parse is
skipped (`except: continue`); `None` when no pattern yields a date.  The
current date `nd` enters only through the dateutil defaults (day, month,
year and the two-digit-year window are completed from the current date
where a pattern leaves them unspecified).
-/
def extract_date_from_source (nd : Date) (uri title : Option String) : Option Date :=
  match search_ymd (date_blob uri title) with
  | some (y, m, d) =>
    (match py_parse_ymd y m d with
     | some dt => some dt
     | none => extract_date_bc nd (date_blob uri title))
  | none => extract_date_bc nd (date_blob uri title)

/-! ## Staleness detector -/

/-- `chunk.get("uri", "")`: the empty dict yields `""`, otherwise the
stored value (possibly `None`). -/
def chunk_get_uri : ChunkData → Option String
  | ChunkData.empty => some ""
  | ChunkData.web u _ => u

/-- `chunk.get("title", "")`. -/
def chunk_get_title : ChunkData → Option String
  | ChunkData.empty => some ""
  | ChunkData.web _ t => t

/--
`_detect_stale_knowledge(grounding_metadata)` evaluated at the current
instant `(nd, tod)`: true when some chunk yields a date strictly earlier
than `now - timedelta(days=180)` (`self.stale_threshold_days = 180`).
Parsed dates sit at midnight; the threshold keeps the time of day of
`now`, exactly as `datetime` subtraction does.
-/
def detect_stale_knowledge (nd : Date) (tod : ℕ) (md : GroundingMetadata) : Bool :=
  md.grounding_chunks.any fun c =>
    match extract_date_from_source nd (chunk_get_uri c) (chunk_get_title c) with
    | some dt => decide (instant dt 0 < instant nd tod - 180 * (usec_per_day : ℤ))
    | none => false

/-! ## The raw model response tree and the metadata extractor -/

/-- `support.segment`, when the attribute exists. -/
structure RawSegment where
  text : Option String

/-- One element of `grounding_metadata.grounding_supports`. -/
structure RawSupport where
  segment : Option RawSegment
  grounding_chunk_indices : Option (List Int)
  confidence_scores : Option (List ℚ)

/-- `chunk.web`, when the attribute exists. -/
structure RawWeb where
  uri : Option String
  title : Option String

/-- One element of `grounding_metadata.grounding_chunks`. -/
structure RawChunk where
  web : Option RawWeb

/-- `grounding_metadata.search_entry_point`. -/
structure RawSearchEntryPoint where
  rendered_content : Option String

/-- `candidate.grounding_metadata`: each branch may be absent. -/
structure RawGroundingMetadata where
  search_entry_point : Option RawSearchEntryPoint
  grounding_chunks : Option (List RawChunk)
  grounding_supports : Option (List RawSupport)

/-- One element of `response.candidates`. -/
structure RawCandidate where
  grounding_metadata : Option RawGroundingMetadata

/-- The opaque model response: `text` plus an arbitrarily partial tree. -/
structure RawResponse where
  candidates : Option (List RawCandidate)
  text : String

/--
Build one `support_data` dict.  `support.segment.text` is the one
unguarded attribute access of the extractor: `hasattr` is checked for `segment`
is checked but `.text` is not, so a segment without a `text` attribute
raises (modelled as `Except.error`), to be caught by the outer
`except` clause.
-/
def process_support (s : RawSupport) : Except Unit SupportData :=
  match s.segment with
  | some seg =>
    (match seg.text with
     | some t =>
       Except.ok ⟨some t, s.grounding_chunk_indices.getD [], s.confidence_scores.getD []⟩
     | none => Except.error ())
  | none =>
    Except.ok ⟨none, s.grounding_chunk_indices.getD [], s.confidence_scores.getD []⟩

/--
The supports loop.  On a raise the exception leaves the loop: supports
appended so far survive in the mutated dict, the rest are dropped.
-/
def extract_supports : List RawSupport → List SupportData
  | [] => []
  | s :: rest =>
    match process_support s with
    | Except.ok d => d :: extract_supports rest
    | Except.error _ => []

/-- One chunk dict: `{}` without a `web` attribute, both keys otherwise. -/
def extract_chunk (c : RawChunk) : ChunkData :=
  match c.web with
  | some w => ChunkData.web w.uri w.title
  | none => ChunkData.empty

/--
`_extract_grounding_metadata(response)`: starts from the dict with the
three empty lists and fills in whatever branches of the optional tree are
present; `response.candidates` must be present and truthy (non-empty).
-/
def extract_grounding_metadata (r : RawResponse) : GroundingMetadata :=
  match r.candidates with
  | some (cand :: _) =>
    (match cand.grounding_metadata with
     | some gm =>
       { search_queries :=
           match gm.search_entry_point with
           | some s =>
             (match s.rendered_content with
              | some rc => [rc]
              | none => [])
           | none => []
         grounding_chunks := (gm.grounding_chunks.getD []).map extract_chunk
         grounding_supports := extract_supports (gm.grounding_supports.getD []) }
     | none => ⟨[], [], []⟩)
  | _ => ⟨[], [], []⟩

/-! ## Orchestrator: `get_grounded_response` -/

/-- The warning string of `get_grounded_response`. -/
def warning_text : String := "⚠️ Unverified Data - No grounding supports"

/-- The dictionary `get_grounded_response` returns to its caller. -/
structure VerificationResult where
  response : String
  grounding_metadata : GroundingMetadata
  is_hallucinated : Bool
  is_stale : Bool
  sources_count : ℕ
  confidence_score : ℚ
  warning : Option String

/--
Assembly of the result dict from the response text and the extracted
metadata (lines 49-77 of `agent.py`), evaluated at the current instant.
-/
def assemble_result (nd : Date) (tod : ℕ) (response_text : String)
    (md : GroundingMetadata) : VerificationResult :=
  { response := response_text
    grounding_metadata := md
    is_hallucinated := detect_hallucination response_text md
    is_stale := detect_stale_knowledge nd tod md
    sources_count := md.grounding_chunks.length
    confidence_score := calculate_confidence_score md
    warning :=
      if md.grounding_supports = [] ∧ detect_hallucination response_text md = false
      then some warning_text else none }

/-- `get_grounded_response`: extract, analyze, assemble. -/
def get_grounded_response (nd : Date) (tod : ℕ) (r : RawResponse) : VerificationResult :=
  assemble_result nd tod r.text (extract_grounding_metadata r)

/-! ## Spec-side predicate for the wording of claim C6 -/

/-- Split a character list into its lines. -/
def split_lines : List Char → List (List Char)
  | [] => [[]]
  | c :: rest =>
    if c = '\n' then [] :: split_lines rest
    else
      match split_lines rest with
      | [] => [[c]]
      | h :: t => (c :: h) :: t

/-- A line beginning with one or more digits followed by a period. -/
def starts_with_digit_dot (l : List Char) : Bool :=
  !(l.takeWhile Char.isDigit).isEmpty && first_is (l.dropWhile Char.isDigit) '.'

/--
List formatting as the claim words it: an asterisk bullet (a line
beginning with an asterisk), a line beginning with a digit run followed
by a period, or a line beginning with a dash.
-/
def spec_list_formatting (t : String) : Bool :=
  (split_lines t.toList).any (fun l => first_is l '*') ||
    (split_lines t.toList).any starts_with_digit_dot ||
    (split_lines t.toList).any (fun l => first_is l '-')

example : detect_hallucination "Paris is the capital of France."
    ⟨[], [ChunkData.web (some "u") none], [⟨some "s", [0], []⟩]⟩ = false := by decide
example : detect_hallucination "- Apples\n- Oranges\n- Pears" ⟨[], [], []⟩ = true := by
  decide
example : detect_hallucination "- Apples" ⟨[], [], []⟩ = false := by decide
example : find_citations "The capital is Paris [1] and its population is 2M [2].".toList
    = [1, 2] := by decide
example :
    extract_date_from_source ⟨2026, 10, 12⟩
      (some "https://example.com/2019-01-15/report") (some "Report")
    = some ⟨2019, 1, 15⟩ := by decide
example : extract_date_from_source ⟨2026, 10, 12⟩ (some "Big [2021/07] review") none
    = some ⟨2021, 7, 12⟩ := by decide
example : extract_date_from_source ⟨2026, 10, 12⟩ (some "n/a 2019-02-30 Dec 5, 2001") none
    = some ⟨2019, 2, 12⟩ := by decide
example : extract_date_from_source ⟨2026, 10, 12⟩ (some "posted Dec 5, 2001") none
    = some ⟨2001, 12, 5⟩ := by decide
example : extract_date_from_source ⟨2026, 10, 12⟩ none none = none := by decide
example : extract_date_from_source ⟨2026, 10, 12⟩ (some "v2 2019-15-01 report") none
    = none := by decide
example : extract_date_from_source ⟨2026, 6, 30⟩ (some "archive/2021-02") none
    = some ⟨2021, 2, 28⟩ := by decide
example : extract_date_from_source ⟨2026, 10, 12⟩ (some "issue 2019-25") none
    = none := by decide
example : extract_date_from_source ⟨2026, 10, 12⟩ (some "Marketing 3, 2021") none
    = some ⟨2021, 3, 12⟩ := by decide
example : extract_date_from_source ⟨2026, 10, 12⟩ (some "Mayor 15, 2019") none
    = none := by decide
example : extract_date_from_source ⟨2026, 10, 12⟩ (some "May 15, 2019") none
    = some ⟨2019, 5, 15⟩ := by decide
example : detect_stale_knowledge ⟨2026, 10, 12⟩ 0
    ⟨[], [ChunkData.web (some "https://example.com/2019-01-15/report") (some "Report")], []⟩
    = true := by decide
example : spec_list_formatting "- Apples" = true := by decide

/-! ## Helper lemmas on the confidence score -/

theorem round_two_int (q : ℚ) (n : ℤ) (h : 100 * q = (n : ℚ)) :
    round_two q = (n : ℚ) / 100 := by
  have hf : ⌊100 * q + 1 / 2⌋ = n := by
    rw [h, Int.floor_eq_iff]
    constructor
    · linarith
    · linarith
  rw [round_two, hf]

theorem round_two_eq_self (q : ℚ) (n : ℤ) (h : 100 * q = (n : ℚ)) :
    round_two q = q := by
  rw [round_two_int q n h, eq_comm, eq_div_iff (by norm_num : (100 : ℚ) ≠ 0)]
  linarith

theorem min_part_ge (c : ℕ) (h : 5 ≤ c) : min ((c : ℚ) / 5) 1 = 1 := by
  apply min_eq_right
  rw [le_div_iff₀ (by norm_num : (0 : ℚ) < 5), one_mul]
  exact_mod_cast h

theorem min_part_lt (c : ℕ) (h : c ≤ 5) : min ((c : ℚ) / 5) 1 = (c : ℚ) / 5 := by
  apply min_eq_left
  rw [div_le_one (by norm_num : (0 : ℚ) < 5)]
  exact_mod_cast h

/-- Rounding is the identity on every reachable score: `100 ·` score is an
integer. -/
theorem conf_core_unrounded (c s : ℕ) :
    conf_core c s =
      (if 0 < c then (2 : ℚ) / 5 else 0) + (if 0 < s then (2 : ℚ) / 5 else 0) +
        min ((c : ℚ) / 5) 1 * (1 / 5) := by
  by_cases h5 : 5 ≤ c
  · refine round_two_eq_self _
      ((if 0 < c then 40 else 0) + (if 0 < s then 40 else 0) + 20) ?_
    have hc : 0 < c := by omega
    rw [min_part_ge c h5]
    by_cases hs : 0 < s <;>
      simp only [hc, hs, if_true, if_false] <;> push_cast <;> norm_num
  · refine round_two_eq_self _
      ((if 0 < c then 40 else 0) + (if 0 < s then 40 else 0) + 4 * (c : ℤ)) ?_
    rw [min_part_lt c (by omega)]
    by_cases hc : 0 < c <;> by_cases hs : 0 < s <;>
      simp only [hc, hs, if_true, if_false] <;> push_cast <;> ring

theorem calc_conf_eq_core (md : GroundingMetadata) :
    calculate_confidence_score md =
      conf_core md.grounding_chunks.length md.grounding_supports.length := by
  unfold calculate_confidence_score conf_core
  by_cases hc : 0 < md.grounding_chunks.length <;>
    by_cases hs : 0 < md.grounding_supports.length <;>
    simp only [gt_iff_lt, hc, hs, if_true, if_false] <;> congr 1 <;> ring

theorem spec_conf_eq_core (md : GroundingMetadata) :
    confidence_spec md =
      conf_core md.grounding_chunks.length md.grounding_supports.length := by
  unfold confidence_spec conf_core
  by_cases hc : 0 < md.grounding_chunks.length <;>
    by_cases hs : 0 < md.grounding_supports.length <;>
    simp only [hc, hs, if_true, if_false] <;> congr 1 <;> ring

theorem conf_core_nonneg (c s : ℕ) : 0 ≤ conf_core c s := by
  rw [conf_core_unrounded]
  have h0 : (0 : ℚ) ≤ min ((c : ℚ) / 5) 1 :=
    le_min (by positivity) (by norm_num)
  by_cases hc : 0 < c <;> by_cases hs : 0 < s <;>
    simp only [hc, hs, if_true, if_false] <;> nlinarith

theorem conf_core_le_one (c s : ℕ) : conf_core c s ≤ 1 := by
  rw [conf_core_unrounded]
  have h0 : (0 : ℚ) ≤ min ((c : ℚ) / 5) 1 :=
    le_min (by positivity) (by norm_num)
  have h1 : min ((c : ℚ) / 5) 1 ≤ 1 := min_le_right _ _
  by_cases hc : 0 < c <;> by_cases hs : 0 < s <;>
    simp only [hc, hs, if_true, if_false] <;> nlinarith

/-! ## Claim theorems -/

/--
C1: for every metadata the confidence scorer returns exactly the rounded
spec formula `0.4·[chunks > 0] + 0.4·[supports > 0] + min(chunks/5, 1)·0.2`;
the result lies in `[0, 1]`; it is `0` on empty metadata and `1` with at
least five chunks and at least one support.
-/
theorem claim_c1_confidence_score (md : GroundingMetadata) :
    calculate_confidence_score md = confidence_spec md ∧
    0 ≤ calculate_confidence_score md ∧ calculate_confidence_score md ≤ 1 ∧
    (md.grounding_chunks = [] ∧ md.grounding_supports = [] →
      calculate_confidence_score md = 0) ∧
    (5 ≤ md.grounding_chunks.length ∧ md.grounding_supports ≠ [] →
      calculate_confidence_score md = 1) := by
  refine ⟨?_, ?_, ?_, ?_, ?_⟩
  · rw [calc_conf_eq_core, spec_conf_eq_core]
  · rw [calc_conf_eq_core]
    exact conf_core_nonneg _ _
  · rw [calc_conf_eq_core]
    exact conf_core_le_one _ _
  · rintro ⟨h1, h2⟩
    rw [calc_conf_eq_core, h1, h2]
    rw [conf_core_unrounded]
    norm_num
  · rintro ⟨h1, h2⟩
    rw [calc_conf_eq_core, conf_core_unrounded, min_part_ge _ h1]
    have hc : 0 < md.grounding_chunks.length := by omega
    have hs : 0 < md.grounding_supports.length := List.length_pos.mpr h2
    simp only [hc, hs, if_true]
    norm_num

/-- Witness for C1 at the two corner cases: empty metadata scores `0`,
and five chunks with one support score `1`. -/
theorem claim_c1_witness :
    calculate_confidence_score ⟨[], [], []⟩ = 0 ∧
    calculate_confidence_score
      ⟨[], [ChunkData.empty, ChunkData.empty, ChunkData.empty, ChunkData.empty,
            ChunkData.empty], [⟨none, [], []⟩]⟩ = 1 := by
  constructor
  · exact (claim_c1_confidence_score ⟨[], [], []⟩).2.2.2.1 ⟨rfl, rfl⟩
  · exact (claim_c1_confidence_score
      ⟨[], [ChunkData.empty, ChunkData.empty, ChunkData.empty, ChunkData.empty,
            ChunkData.empty], [⟨none, [], []⟩]⟩).2.2.2.2
      ⟨by norm_num, by simp⟩

/--
C2 counterexample: on the Scenario A metadata (one chunk, one support
referencing index 0) the confidence scorer returns `0.84`, not the `0.8`
the claim states: the source-count bonus `min(1/5, 1)·0.2 = 0.04` is added
on top of `0.4 + 0.4`.
-/
theorem claim_c2_counterexample :
    calculate_confidence_score
      ⟨[], [ChunkData.web (some "https://en.wikipedia.org/wiki/Paris") none],
       [⟨some "Paris is the capital of France.", [0], []⟩]⟩ ≠ 4 / 5 := by
  rw [calc_conf_eq_core]
  show conf_core 1 1 ≠ 4 / 5
  rw [conf_core_unrounded, min_part_lt 1 (by norm_num)]
  norm_num

/--
C2 as amended: for Scenario A (answer "Paris is the capital of France.",
one chunk with the Wikipedia uri, one support referencing chunk index 0)
the hallucination detector returns false and the confidence scorer
returns `0.84`.
-/
theorem claim_c2_scenario_a :
    detect_hallucination "Paris is the capital of France."
      ⟨[], [ChunkData.web (some "https://en.wikipedia.org/wiki/Paris") none],
       [⟨some "Paris is the capital of France.", [0], []⟩]⟩ = false ∧
    calculate_confidence_score
      ⟨[], [ChunkData.web (some "https://en.wikipedia.org/wiki/Paris") none],
       [⟨some "Paris is the capital of France.", [0], []⟩]⟩ = 21 / 25 := by
  constructor
  · decide
  · rw [calc_conf_eq_core]
    show conf_core 1 1 = 21 / 25
    rw [conf_core_unrounded, min_part_lt 1 (by norm_num)]
    norm_num

/--
C3: the metadata extractor is total.  In this embedding
`extract_grounding_metadata` is a total function over arbitrary partial
response trees — the one raising attribute access of the source
(`support.segment.text`) is modelled by `process_support` returning
`Except.error`, and the `except` clause keeps the partially built dict —
and its result always carries all three fields as (possibly empty) lists.
-/
theorem claim_c3_extractor_total (r : RawResponse) :
    ∃ sq gc gs, extract_grounding_metadata r = ⟨sq, gc, gs⟩ :=
  ⟨_, _, _, rfl⟩

/--
C4: with no bracketed-integer citation and no list formatting in the text
and zero grounding chunks, the detector fires exactly on texts longer
than 50 characters, whatever the supports are: check 3 (200 characters,
no supports) is subsumed by check 4 in this region.
-/
theorem claim_c4_bare_answer (t : String) (md : GroundingMetadata)
    (h1 : find_citations t.toList = [])
    (h2 : has_list t = false)
    (h3 : md.grounding_chunks = []) :
    (detect_hallucination t md = true ↔ 50 < t.length) := by
  unfold detect_hallucination
  rw [h1, h2, h3]
  simp only [List.length_nil, ne_eq, not_true_eq_false, false_and, if_false,
    Bool.false_eq_true, and_false, lt_irrefl, and_true, eq_self_iff_true, true_and,
    if_neg, not_false_iff]
  split_ifs with ha hb
  · exact iff_of_true rfl (lt_trans (by norm_num) ha.1)
  · exact iff_of_true rfl hb.2
  · refine iff_of_false (by simp) fun h50 => hb ⟨fun he => ?_, h50⟩
    rw [he] at h50
    exact absurd h50 (by decide)

/-- Witness for C4: a 40-character answer with zero chunks is not flagged. -/
theorem claim_c4_witness :
    detect_hallucination "aaaaaaaaaaaaaaaaaaaaaaaaaaaaaaaaaaaaaaaa" ⟨[], [], []⟩
      = false := by
  have h := claim_c4_bare_answer "aaaaaaaaaaaaaaaaaaaaaaaaaaaaaaaaaaaaaaaa"
    ⟨[], [], []⟩ (by decide) (by decide) rfl
  revert h
  decide

/--
C5: whenever the text contains bracketed-integer citations whose maximum
exceeds the number of grounding chunks, the detector returns true
unconditionally — the ghost-citation check is the first check and nothing
can preempt it.
-/
theorem claim_c5_ghost_citation (t : String) (md : GroundingMetadata)
    (h1 : find_citations t.toList ≠ [])
    (h2 : md.grounding_chunks.length < max_citation (find_citations t.toList)) :
    detect_hallucination t md = true := by
  unfold detect_hallucination
  rw [if_pos ⟨h1, h2⟩]

/-- Witness for C5: Scenario B — citations `[1]`, `[2]` against one chunk. -/
theorem claim_c5_witness :
    detect_hallucination "The capital is Paris [1] and its population is 2M [2]."
      ⟨[], [ChunkData.web (some "https://en.wikipedia.org/wiki/Paris") none], []⟩
      = true :=
  claim_c5_ghost_citation _ _ (by decide) (by decide)

/--
C6 counterexample: the single-line answer "- Apples" begins with a dash,
so it exhibits list formatting in the sense of the claim, and the metadata has
zero chunks, yet the detector returns false: the empty-receipt
patterns demand a newline before the dash (`\n-`), so a first line is
never matched.
-/
theorem claim_c6_counterexample :
    spec_list_formatting "- Apples" = true ∧
    detect_hallucination "- Apples" ⟨[], [], []⟩ = false :=
  ⟨by decide, by decide⟩

/--
C6 as amended: with zero chunks and the ghost-citation check not firing,
the detector returns true whenever the text contains an asterisk
anywhere, or a newline followed by a digit run and a period, or a newline
followed by a dash (`has_list`); and on texts of at most 50 characters it
returns true exactly then.  A first line beginning with a dash or with
digits and a period (no preceding newline) does not count, while an
asterisk counts even outside a bullet.
-/
theorem claim_c6_empty_receipt (t : String) (md : GroundingMetadata)
    (h1 : md.grounding_chunks = [])
    (h2 : find_citations t.toList = [] ∨
      max_citation (find_citations t.toList) ≤ md.grounding_chunks.length) :
    (has_list t = true → detect_hallucination t md = true) ∧
    (t.length ≤ 50 → (detect_hallucination t md = true ↔ has_list t = true)) := by
  have hg : ¬(find_citations t.toList ≠ [] ∧
      md.grounding_chunks.length < max_citation (find_citations t.toList)) := by
    rcases h2 with h | h
    · exact fun hx => absurd h hx.1
    · exact fun hx => absurd hx.2 (not_lt.mpr h)
  have hz : md.grounding_chunks.length = 0 := by
    rw [h1]
    rfl
  constructor
  · intro hl
    unfold detect_hallucination
    rw [if_neg hg, if_pos ⟨hz, hl⟩]
  · intro h50
    unfold detect_hallucination
    rw [if_neg hg]
    by_cases hl : has_list t = true
    · rw [if_pos ⟨hz, hl⟩]
      simp [hl]
    · rw [if_neg fun hx => hl hx.2]
      rw [if_neg fun hx => absurd hx.1 (by omega)]
      rw [if_neg fun hx => absurd hx.2.1 (by omega)]
      simp [hl]

/-- Witness for C6: Scenario C — a dashed list with zero chunks is flagged. -/
theorem claim_c6_witness :
    detect_hallucination "- Apples\n- Oranges\n- Pears" ⟨[], [], []⟩ = true :=
  (claim_c6_empty_receipt "- Apples\n- Oranges\n- Pears" ⟨[], [], []⟩ rfl
    (Or.inl (by decide))).1 (by decide)

/-- The pattern loop of `_extract_date_from_source` as a three-stage
cascade over the per-pattern results. -/
theorem extract_date_cascade (nd : Date) (uri title : Option String) :
    extract_date_from_source nd uri title =
      (match pattern_a_result (date_blob uri title) with
       | some dt => some dt
       | none =>
         match pattern_b_result nd (date_blob uri title) with
         | some dt => some dt
         | none => pattern_c_result nd (date_blob uri title)) := by
  unfold extract_date_from_source extract_date_bc pattern_a_result pattern_b_result
  cases hA : search_ymd (date_blob uri title) with
  | none =>
    cases hB : search_ym (date_blob uri title) with
    | none => rfl
    | some g =>
      obtain ⟨y, m⟩ := g
      cases hP : py_parse_ym nd y m <;> simp [hP]
  | some g =>
    obtain ⟨y, m, d⟩ := g
    cases hP : py_parse_ymd y m d with
    | some dt => simp [hP]
    | none =>
      simp only [hP]
      cases hB : search_ym (date_blob uri title) with
      | none => rfl
      | some g2 =>
        obtain ⟨y2, m2⟩ := g2
        cases hP2 : py_parse_ym nd y2 m2 <;> simp [hP2]

/--
C7: the staleness detector (threshold 180 days) returns true at instant
`(nd, tod)` exactly when the extracted date of some chunk is strictly earlier
than `now - 180 days`; a chunk yielding no date never contributes, and
future dates receive no special treatment.
-/
theorem claim_c7_staleness (nd : Date) (tod : ℕ) (md : GroundingMetadata) :
    detect_stale_knowledge nd tod md = true ↔
      ∃ c, c ∈ md.grounding_chunks ∧ ∃ dt,
        extract_date_from_source nd (chunk_get_uri c) (chunk_get_title c) = some dt ∧
        instant dt 0 < instant nd tod - 180 * (usec_per_day : ℤ) := by
  unfold detect_stale_knowledge
  rw [List.any_eq_true]
  constructor
  · rintro ⟨c, hc, hp⟩
    refine ⟨c, hc, ?_⟩
    revert hp
    cases hx : extract_date_from_source nd (chunk_get_uri c) (chunk_get_title c) with
    | none => exact fun hp => absurd hp (by simp)
    | some dt => exact fun hp => ⟨dt, rfl, of_decide_eq_true hp⟩
  · rintro ⟨c, hc, dt, hx, hlt⟩
    refine ⟨c, hc, ?_⟩
    rw [hx]
    exact decide_eq_true hlt

/-- Witness for C7: Scenario D — a chunk dated 2019-01-15 examined from
2026-10-12, far beyond the 180-day threshold, is stale. -/
theorem claim_c7_witness :
    detect_stale_knowledge ⟨2026, 10, 12⟩ 0
      ⟨[], [ChunkData.web (some "https://example.com/2019-01-15/report")
              (some "Report")], []⟩ = true :=
  (claim_c7_staleness ⟨2026, 10, 12⟩ 0 _).mpr
    ⟨ChunkData.web (some "https://example.com/2019-01-15/report") (some "Report"),
     by decide, ⟨2019, 1, 15⟩, by decide, by decide⟩

/--
C8: the date extractor tries the three patterns in fixed precedence over
the blob `f"{uri} {title}"`, any substring match qualifying; a pattern
whose (first) match fails to parse into a calendar date is skipped in
favour of the next pattern; if no pattern produces a parseable date the
extractor returns `none` — and, being a total function, it never raises.
-/
theorem claim_c8_date_extractor (nd : Date) (uri title : Option String) :
    (∀ dt, pattern_a_result (date_blob uri title) = some dt →
      extract_date_from_source nd uri title = some dt) ∧
    (pattern_a_result (date_blob uri title) = none →
      ∀ dt, pattern_b_result nd (date_blob uri title) = some dt →
        extract_date_from_source nd uri title = some dt) ∧
    (pattern_a_result (date_blob uri title) = none →
      pattern_b_result nd (date_blob uri title) = none →
      extract_date_from_source nd uri title =
        pattern_c_result nd (date_blob uri title)) ∧
    (pattern_a_result (date_blob uri title) = none →
      pattern_b_result nd (date_blob uri title) = none →
      pattern_c_result nd (date_blob uri title) = none →
      extract_date_from_source nd uri title = none) := by
  have hc := extract_date_cascade nd uri title
  refine ⟨?_, ?_, ?_, ?_⟩
  · intro dt h
    rw [hc, h]
  · intro ha dt h
    rw [hc, ha, h]
  · intro ha hb
    rw [hc, ha, hb]
  · intro ha hb hc3
    rw [hc, ha, hb, hc3]

/-- Witness for C8: the first pattern finds `2019-01-15` inside the uri
and it parses, so it wins. -/
theorem claim_c8_witness :
    extract_date_from_source ⟨2026, 10, 12⟩
      (some "https://example.com/2019-01-15/report") (some "Report")
      = some ⟨2019, 1, 15⟩ :=
  (claim_c8_date_extractor ⟨2026, 10, 12⟩
    (some "https://example.com/2019-01-15/report") (some "Report")).1
    ⟨2019, 1, 15⟩ (by decide)

/--
C9: the returned `warning` is the fixed string exactly when the metadata
has zero grounding supports and the answer was not flagged as
hallucinated, and `None` in every other case; `sources_count` always
equals the number of grounding chunks.
-/
theorem claim_c9_warning (nd : Date) (tod : ℕ) (r : RawResponse) :
    ((get_grounded_response nd tod r).warning = some warning_text ↔
      ((extract_grounding_metadata r).grounding_supports = [] ∧
        detect_hallucination r.text (extract_grounding_metadata r) = false)) ∧
    ((get_grounded_response nd tod r).warning = none ↔
      ¬((extract_grounding_metadata r).grounding_supports = [] ∧
        detect_hallucination r.text (extract_grounding_metadata r) = false)) ∧
    (get_grounded_response nd tod r).sources_count =
      (extract_grounding_metadata r).grounding_chunks.length := by
  simp only [get_grounded_response, assemble_result]
  refine ⟨?_, ?_, trivial⟩ <;> split_ifs with h
  · exact iff_of_true rfl h
  · exact iff_of_false (by simp) h
  · exact iff_of_false (by simp) (not_not_intro h)
  · exact iff_of_true rfl h

/-- Witness for C9: a response with no grounding tree and a short text is
not flagged, has no supports, and gets the warning. -/
theorem claim_c9_witness :
    (get_grounded_response ⟨2026, 10, 12⟩ 0 ⟨none, "Hi"⟩).warning = some warning_text :=
  (claim_c9_warning ⟨2026, 10, 12⟩ 0 ⟨none, "Hi"⟩).1.mpr ⟨rfl, by decide⟩

/-- The hallucination detector reads the supports only through their
emptiness. -/
theorem detect_hallucination_supports_congr (t : String) (q1 q2 : List String)
    (ch : List ChunkData) (s1 s2 : List SupportData) (h : s1 = [] ↔ s2 = []) :
    detect_hallucination t ⟨q1, ch, s1⟩ = detect_hallucination t ⟨q2, ch, s2⟩ := by
  cases s1 with
  | nil =>
    cases s2 with
    | nil => rfl
    | cons b bs => exact absurd (h.mp rfl) (List.cons_ne_nil b bs)
  | cons a as =>
    cases s2 with
    | nil => exact absurd (h.mpr rfl) (List.cons_ne_nil a as)
    | cons b bs =>
      unfold detect_hallucination
      refine if_congr Iff.rfl rfl (if_congr Iff.rfl rfl (if_congr ?_ rfl
        (if_congr Iff.rfl rfl rfl)))
      constructor <;>
        (rintro ⟨x1, x2, x3⟩; exact absurd x2 (List.cons_ne_nil _ _))

/-- The rounded score does not depend on which positive value the support
count takes. -/
theorem conf_core_supports_pos (c s s' : ℕ) (hs : 0 < s) (hs' : 0 < s') :
    conf_core c s = conf_core c s' := by
  unfold conf_core
  rw [if_pos hs, if_pos hs']

/-- The confidence scorer reads the supports only through their emptiness. -/
theorem calculate_confidence_supports_congr (q1 q2 : List String)
    (ch : List ChunkData) (s1 s2 : List SupportData) (h : s1 = [] ↔ s2 = []) :
    calculate_confidence_score ⟨q1, ch, s1⟩ = calculate_confidence_score ⟨q2, ch, s2⟩ := by
  rw [calc_conf_eq_core, calc_conf_eq_core]
  cases s1 with
  | nil =>
    cases s2 with
    | nil => rfl
    | cons b bs => exact absurd (h.mp rfl) (List.cons_ne_nil b bs)
  | cons a as =>
    cases s2 with
    | nil => exact absurd (h.mpr rfl) (List.cons_ne_nil a as)
    | cons b bs => exact conf_core_supports_pos _ _ _ (Nat.succ_pos _) (Nat.succ_pos _)

/--
C10: every output of the pipeline — `is_hallucinated`, `is_stale`,
`confidence_score`, `sources_count`, `warning` — depends on the supports
list only through whether it is empty: two metadata values with the same
chunks whose supports lists agree on emptiness (but may differ in segment
texts, chunk indices — even out-of-bounds ones — and confidence scores)
produce identical outputs for the same text and time.  No consumer
bounds-checks the chunk indices of a support.
-/
theorem claim_c10_supports_opacity (t : String) (nd : Date) (tod : ℕ)
    (md1 md2 : GroundingMetadata)
    (hch : md1.grounding_chunks = md2.grounding_chunks)
    (hs : md1.grounding_supports = [] ↔ md2.grounding_supports = []) :
    (assemble_result nd tod t md1).is_hallucinated =
      (assemble_result nd tod t md2).is_hallucinated ∧
    (assemble_result nd tod t md1).is_stale = (assemble_result nd tod t md2).is_stale ∧
    (assemble_result nd tod t md1).confidence_score =
      (assemble_result nd tod t md2).confidence_score ∧
    (assemble_result nd tod t md1).sources_count =
      (assemble_result nd tod t md2).sources_count ∧
    (assemble_result nd tod t md1).warning = (assemble_result nd tod t md2).warning := by
  obtain ⟨q1, c1, s1⟩ := md1
  obtain ⟨q2, c2, s2⟩ := md2
  dsimp only at hch hs
  subst hch
  have hd := detect_hallucination_supports_congr t q1 q2 c1 s1 s2 hs
  refine ⟨hd, rfl, calculate_confidence_supports_congr q1 q2 c1 s1 s2 hs, rfl, ?_⟩
  show (if s1 = [] ∧ detect_hallucination t ⟨q1, c1, s1⟩ = false
        then some warning_text else none) =
      (if s2 = [] ∧ detect_hallucination t ⟨q2, c1, s2⟩ = false
        then some warning_text else none)
  refine if_congr (and_congr hs ?_) rfl rfl
  rw [hd]

/-- Witness for C10: two metadata values whose single support differs in
segment text, indices (one out of bounds) and scores give identical
outputs. -/
theorem claim_c10_witness :
    (assemble_result ⟨2026, 10, 12⟩ 0 "hello there"
        ⟨[], [ChunkData.empty], [⟨some "a", [0], [9 / 10]⟩]⟩).is_hallucinated =
      (assemble_result ⟨2026, 10, 12⟩ 0 "hello there"
        ⟨[], [ChunkData.empty], [⟨none, [99], []⟩]⟩).is_hallucinated ∧
    (assemble_result ⟨2026, 10, 12⟩ 0 "hello there"
        ⟨[], [ChunkData.empty], [⟨some "a", [0], [9 / 10]⟩]⟩).is_stale =
      (assemble_result ⟨2026, 10, 12⟩ 0 "hello there"
        ⟨[], [ChunkData.empty], [⟨none, [99], []⟩]⟩).is_stale ∧
    (assemble_result ⟨2026, 10, 12⟩ 0 "hello there"
        ⟨[], [ChunkData.empty], [⟨some "a", [0], [9 / 10]⟩]⟩).confidence_score =
      (assemble_result ⟨2026, 10, 12⟩ 0 "hello there"
        ⟨[], [ChunkData.empty], [⟨none, [99], []⟩]⟩).confidence_score ∧
    (assemble_result ⟨2026, 10, 12⟩ 0 "hello there"
        ⟨[], [ChunkData.empty], [⟨some "a", [0], [9 / 10]⟩]⟩).sources_count =
      (assemble_result ⟨2026, 10, 12⟩ 0 "hello there"
        ⟨[], [ChunkData.empty], [⟨none, [99], []⟩]⟩).sources_count ∧
    (assemble_result ⟨2026, 10, 12⟩ 0 "hello there"
        ⟨[], [ChunkData.empty], [⟨some "a", [0], [9 / 10]⟩]⟩).warning =
      (assemble_result ⟨2026, 10, 12⟩ 0 "hello there"
        ⟨[], [ChunkData.empty], [⟨none, [99], []⟩]⟩).warning :=
  claim_c10_supports_opacity "hello there" ⟨2026, 10, 12⟩ 0
    ⟨[], [ChunkData.empty], [⟨some "a", [0], [9 / 10]⟩]⟩
    ⟨[], [ChunkData.empty], [⟨none, [99], []⟩]⟩ rfl (by simp)

end Agent
